import Mathlib

/-!
Shallow embedding of the database session-lifecycle managers of the
`utils` repository (`src/database/general.py`, `src/database/sync_database.py`,
`src/database/async_database.py`), together with theorems settling the
specification claims about them.

Conventions of the embedding:
* Python `None` becomes `Option.none`; attributes that can be nulled are
  `Option` fields.
* Exceptions become explicit outcomes: an operation returns an `Outcome`
  that is either a normal value, a raised `ServiceError`, or a propagated
  underlying Python exception (`PyExc`).
* The caller's block inside a `with` scope is a parameter of type
  `Except PyExc α`: it either returns a value or raises an exception,
  which is either a database-layer `SQLAlchemyError` or any other
  exception.
* Observable calls made by this layer (rollback, close, dispose,
  transaction begin, session-factory invocation, log calls) are recorded
  in an event trace, in program order.  Fresh session objects are
  identified by a numeric id supplied by the caller of the scope
  (freshness across sequential scopes is made explicit by `runSessions`,
  which numbers scopes consecutively).
-/

namespace DBUtils

/-- Connection parameters, from `DefineGeneralDb` in `src/database/general.py`
(fields `drivername`, `username`, `password`, `host`, `database`, `port`). -/
structure DefineGeneralDb where
  drivername : String
  username : String
  password : String
  host : String
  database : String
  port : Int
deriving DecidableEq, Repr

/-- Connection URL as assembled by SQLAlchemy's `URL.create`, restricted to
the six keyword fields that `BaseSessionManager.create_url` passes. -/
structure URL where
  drivername : String
  username : String
  password : String
  host : String
  database : String
  port : Int
deriving DecidableEq, Repr

/-- External collaborator `sqlalchemy.URL.create`: assembles a `URL` value
from the given fields, keeping each field as passed. -/
def URL.create (drivername username password host database : String)
    (port : Int) : URL :=
  { drivername := drivername, username := username, password := password,
    host := host, database := database, port := port }

/-- `BaseSessionManager.create_url` (`src/database/general.py` lines 42-43):
`URL.create(**self.db_params.model_dump())`. -/
def create_url (db_params : DefineGeneralDb) : URL :=
  URL.create db_params.drivername db_params.username db_params.password
    db_params.host db_params.database db_params.port

/-- A Python exception raised by the caller's block: either a database-layer
`SQLAlchemyError` or any other exception (only the former is caught by the
managers' `except SQLAlchemyError` clauses). -/
inductive PyExc where
  | sqlAlchemyError (msg : String)
  | otherError (msg : String)
deriving DecidableEq, Repr

/-- Modelled from the spec: the class body of `ServiceError` is absent from
`src/database/general.py` (only its import sites and its tests in
`src/tests/database/test_general.py` remain).  Per the spec it is "a single
error kind carrying an optional human-readable message"; per its tests it
has an optional `msg` attribute.  The `cause` field records the exception
attached by `raise ... from exc` (Python `__cause__`). -/
structure ServiceError where
  msg : Option String
  cause : Option PyExc := none
deriving DecidableEq, Repr

/-- Outcome of one manager operation: normal return, a raised
`ServiceError`, or an underlying Python exception propagating unchanged. -/
inductive Outcome (α : Type) where
  | ok (a : α)
  | serviceError (e : ServiceError)
  | pyExc (e : PyExc)
deriving DecidableEq, Repr

/-- Observable calls made by the manager layer, in program order.
Session-level events carry the numeric id of the session object. -/
inductive Event where
  | logInfo (msg : String)
  | logError (msg : String)
  | engineDispose
  | beginConnection
  | connectionRollback
  | sessionFactoryCall (sid : Nat)
  | sessionRollback (sid : Nat)
  | sessionClose (sid : Nat)
deriving DecidableEq, Repr

/-- SQLAlchemy engine handle.  `disposeError = some msg` models
`engine.dispose()` raising `SQLAlchemyError(msg)`; `none` models a clean
disposal. -/
structure Engine where
  disposeError : Option String
deriving DecidableEq, Repr

/-- Session factory produced by `sessionmaker(autocommit=False, bind=engine)`
(respectively `async_sessionmaker`): a callable bound to an engine. -/
structure Sessionmaker where
  bind : Option Engine
deriving DecidableEq, Repr

/-- Result of one manager operation: the manager's state after the
operation, the outcome, and the trace of observable calls. -/
structure OpResult (μ : Type) (α : Type) where
  manager : μ
  outcome : Outcome α
  events : List Event
deriving DecidableEq

/-- `SyncDatabaseManager` state (`src/database/sync_database.py`): connection
parameters, nullable engine handle, nullable session-factory handle. -/
structure SyncDatabaseManager where
  db_params : DefineGeneralDb
  engine : Option Engine
  _sessionmaker : Option Sessionmaker
deriving DecidableEq, Repr

namespace SyncDatabaseManager

/-- `SyncDatabaseManager.__init__` (lines 76-83): stores the parameters,
sets `engine` to the handle returned by `create_engine(self.create_url())`,
sets `_sessionmaker` to `sessionmaker(autocommit=False, bind=self.engine)`,
and logs "Engine setup correctly".  `eng` is the engine object returned by
the external `create_engine` call. -/
def init (db_params : DefineGeneralDb) (eng : Engine) :
    OpResult SyncDatabaseManager Unit :=
  { manager :=
      { db_params := db_params
        engine := some eng
        _sessionmaker := some { bind := some eng } }
    outcome := .ok ()
    events := [.logInfo "Engine setup correctly"] }

/-- `SyncDatabaseManager.close` (lines 86-107): raises
`ServiceError("Engine is not initialized")` when `self.engine is None`;
otherwise disposes the engine and, in a `finally` block, nulls out both
`engine` and `_sessionmaker`; a `SQLAlchemyError` from `dispose` is
re-raised as `ServiceError("Failed to close database engine") from exc`. -/
def close (m : SyncDatabaseManager) : OpResult SyncDatabaseManager Unit :=
  match m.engine with
  | none =>
      { manager := m
        outcome := .serviceError { msg := some "Engine is not initialized" }
        events := [.logError "Attempted to close a non-existing engine"] }
  | some eng =>
      match eng.disposeError with
      | none =>
          { manager := { m with engine := none, _sessionmaker := none }
            outcome := .ok ()
            events := [.engineDispose, .logInfo "Database engine disposed"] }
      | some msg =>
          { manager := { m with engine := none, _sessionmaker := none }
            outcome := .serviceError
              { msg := some "Failed to close database engine"
                cause := some (.sqlAlchemyError msg) }
            events := [.engineDispose,
              .logError "Error while disposing database engine"] }

/-- `SyncDatabaseManager.connect` (lines 109-136): raises
`ServiceError("Engine is not initialized")` when `self.engine is None`;
otherwise enters `with self.engine.begin() as connection` and runs the
caller's block; a `SQLAlchemyError` from the block triggers
`connection.rollback()` and
`ServiceError("Database connection failed") from exc`; any other exception
propagates unchanged. -/
def connect (m : SyncDatabaseManager) (body : Except PyExc α) :
    OpResult SyncDatabaseManager α :=
  match m.engine with
  | none =>
      { manager := m
        outcome := .serviceError { msg := some "Engine is not initialized" }
        events := [.logError "Engine is not available for connection"] }
  | some _ =>
      match body with
      | .ok a =>
          { manager := m, outcome := .ok a, events := [.beginConnection] }
      | .error (.sqlAlchemyError msg) =>
          { manager := m
            outcome := .serviceError
              { msg := some "Database connection failed"
                cause := some (.sqlAlchemyError msg) }
            events := [.beginConnection, .connectionRollback,
              .logError "Database error while using async connection"] }
      | .error (.otherError msg) =>
          { manager := m
            outcome := .pyExc (.otherError msg)
            events := [.beginConnection] }

/-- `SyncDatabaseManager.session` (lines 138-170): raises
`ServiceError("Sessionmaker is not initialized")` when `self._sessionmaker`
is falsy; otherwise calls the factory to create a session (identified by
`sid`) and runs the caller's block; a `SQLAlchemyError` from the block
triggers `session.rollback()`, an error log, and
`ServiceError("Database session failed") from exc`; any other exception
propagates unchanged; in every non-falsy case the `finally` block calls
`session.close()` last. -/
def session (m : SyncDatabaseManager) (sid : Nat) (body : Except PyExc α) :
    OpResult SyncDatabaseManager α :=
  match m._sessionmaker with
  | none =>
      { manager := m
        outcome := .serviceError { msg := some "Sessionmaker is not initialized" }
        events := [.logError "Sessionmaker is not available"] }
  | some _ =>
      match body with
      | .ok a =>
          { manager := m
            outcome := .ok a
            events := [.sessionFactoryCall sid, .sessionClose sid] }
      | .error (.sqlAlchemyError msg) =>
          { manager := m
            outcome := .serviceError
              { msg := some "Database session failed"
                cause := some (.sqlAlchemyError msg) }
            events := [.sessionFactoryCall sid, .sessionRollback sid,
              .logError "Database error while using async session",
              .sessionClose sid] }
      | .error (.otherError msg) =>
          { manager := m
            outcome := .pyExc (.otherError msg)
            events := [.sessionFactoryCall sid, .sessionClose sid] }

end SyncDatabaseManager

/-- `AsyncDatabaseManager` state (`src/database/async_database.py`):
connection parameters, nullable async-engine handle, nullable async
session-factory handle.  Awaits are suspension points in a cooperative
scheduler and are invisible to this sequential embedding. -/
structure AsyncDatabaseManager where
  db_params : DefineGeneralDb
  engine : Option Engine
  _sessionmaker : Option Sessionmaker
deriving DecidableEq, Repr

namespace AsyncDatabaseManager

/-- `AsyncDatabaseManager.__init__` (lines 20-114): stores the parameters,
sets `engine` to the handle returned by
`create_async_engine(self.create_url())`, sets `_sessionmaker` to
`async_sessionmaker(autocommit=False, bind=self.engine)`, and logs
"Engine setup correctly". -/
def init (db_params : DefineGeneralDb) (eng : Engine) :
    OpResult AsyncDatabaseManager Unit :=
  { manager :=
      { db_params := db_params
        engine := some eng
        _sessionmaker := some { bind := some eng } }
    outcome := .ok ()
    events := [.logInfo "Engine setup correctly"] }

/-- `AsyncDatabaseManager.async_close` (lines 116-146): raises
`ServiceError("Engine is not initialized")` when `self.engine is None`;
otherwise awaits `engine.dispose()` and, in a `finally` block, nulls out
both handles; a `SQLAlchemyError` from `dispose` is re-raised as
`ServiceError("Failed to close database engine") from exc`. -/
def async_close (m : AsyncDatabaseManager) : OpResult AsyncDatabaseManager Unit :=
  match m.engine with
  | none =>
      { manager := m
        outcome := .serviceError { msg := some "Engine is not initialized" }
        events := [.logError "Attempted to close a non-existing engine"] }
  | some eng =>
      match eng.disposeError with
      | none =>
          { manager := { m with engine := none, _sessionmaker := none }
            outcome := .ok ()
            events := [.engineDispose, .logInfo "Database engine disposed"] }
      | some msg =>
          { manager := { m with engine := none, _sessionmaker := none }
            outcome := .serviceError
              { msg := some "Failed to close database engine"
                cause := some (.sqlAlchemyError msg) }
            events := [.engineDispose,
              .logError "Error while disposing database engine"] }

/-- `AsyncDatabaseManager.async_connect` (lines 148-177): raises
`ServiceError("Engine is not initialized")` when `self.engine is None`;
otherwise enters `async with self.engine.begin() as connection` and runs
the caller's block; a `SQLAlchemyError` triggers
`await connection.rollback()` and
`ServiceError("Database connection failed") from exc`; any other exception
propagates unchanged. -/
def async_connect (m : AsyncDatabaseManager) (body : Except PyExc α) :
    OpResult AsyncDatabaseManager α :=
  match m.engine with
  | none =>
      { manager := m
        outcome := .serviceError { msg := some "Engine is not initialized" }
        events := [.logError "Engine is not available for connection"] }
  | some _ =>
      match body with
      | .ok a =>
          { manager := m, outcome := .ok a, events := [.beginConnection] }
      | .error (.sqlAlchemyError msg) =>
          { manager := m
            outcome := .serviceError
              { msg := some "Database connection failed"
                cause := some (.sqlAlchemyError msg) }
            events := [.beginConnection, .connectionRollback,
              .logError "Database error while using async connection"] }
      | .error (.otherError msg) =>
          { manager := m
            outcome := .pyExc (.otherError msg)
            events := [.beginConnection] }

/-- `AsyncDatabaseManager.async_session` (lines 179-231): raises
`ServiceError("Sessionmaker is not initialized")` when `self._sessionmaker`
is falsy; otherwise calls the factory to create a session (identified by
`sid`) and runs the caller's block; a `SQLAlchemyError` triggers
`await session.rollback()`, an error log, and
`ServiceError("Database session failed") from exc`; any other exception
propagates unchanged; in every non-falsy case the `finally` block awaits
`session.close()` last. -/
def async_session (m : AsyncDatabaseManager) (sid : Nat)
    (body : Except PyExc α) : OpResult AsyncDatabaseManager α :=
  match m._sessionmaker with
  | none =>
      { manager := m
        outcome := .serviceError { msg := some "Sessionmaker is not initialized" }
        events := [.logError "Sessionmaker is not available"] }
  | some _ =>
      match body with
      | .ok a =>
          { manager := m
            outcome := .ok a
            events := [.sessionFactoryCall sid, .sessionClose sid] }
      | .error (.sqlAlchemyError msg) =>
          { manager := m
            outcome := .serviceError
              { msg := some "Database session failed"
                cause := some (.sqlAlchemyError msg) }
            events := [.sessionFactoryCall sid, .sessionRollback sid,
              .logError "Database error while using async session",
              .sessionClose sid] }
      | .error (.otherError msg) =>
          { manager := m
            outcome := .pyExc (.otherError msg)
            events := [.sessionFactoryCall sid, .sessionClose sid] }

end AsyncDatabaseManager

/-! Trace projections: the observable calls a trace makes on sessions and
connections. -/

/-- Ids of the session objects requested from the session factory, in
order. -/
def factoryCalls (es : List Event) : List Nat :=
  es.filterMap fun e =>
    match e with
    | .sessionFactoryCall i => some i
    | _ => none

/-- Ids of the sessions on which `rollback` is called, in order. -/
def sessionRollbacks (es : List Event) : List Nat :=
  es.filterMap fun e =>
    match e with
    | .sessionRollback i => some i
    | _ => none

/-- Ids of the sessions on which `close` is called, in order. -/
def sessionCloses (es : List Event) : List Nat :=
  es.filterMap fun e =>
    match e with
    | .sessionClose i => some i
    | _ => none

/-- Session rollback and close events of a trace, in order, everything else
dropped. -/
def sessionOps (es : List Event) : List Event :=
  es.filter fun e =>
    match e with
    | .sessionRollback _ => true
    | .sessionClose _ => true
    | _ => false

/-- Number of `rollback` calls made on the scoped connection. -/
def connRollbackCount (es : List Event) : Nat :=
  (es.filter fun e =>
    match e with
    | .connectionRollback => true
    | _ => false).length

/-- Number of transaction-scoped connections begun (`engine.begin()`
entered). -/
def beginConnectionCount (es : List Event) : Nat :=
  (es.filter fun e =>
    match e with
    | .beginConnection => true
    | _ => false).length

/-- Sequential execution of one `session()` scope per element of `bodies`
on a `SyncDatabaseManager`, threading the manager state and numbering
the session objects consecutively from `start` (each `self._sessionmaker()`
call constructs a new session object, so ids never repeat). -/
def runSessions (m : SyncDatabaseManager) (start : Nat) :
    List (Except PyExc α) → SyncDatabaseManager × List Event
  | [] => (m, [])
  | b :: bs =>
      let r := m.session start b
      let rest := runSessions r.manager (start + 1) bs
      (rest.1, r.events ++ rest.2)

/-- Sequential execution of one `async_session()` scope per element of
`bodies` on an `AsyncDatabaseManager`, threading the manager state and
numbering the session objects consecutively from `start`. -/
def runAsyncSessions (m : AsyncDatabaseManager) (start : Nat) :
    List (Except PyExc α) → AsyncDatabaseManager × List Event
  | [] => (m, [])
  | b :: bs =>
      let r := m.async_session start b
      let rest := runAsyncSessions r.manager (start + 1) bs
      (rest.1, r.events ++ rest.2)

/-- One state-relevant operation of the lifecycle state machine: `Close()`,
a `Connect()` scope with the given caller's block, or a `Session()` scope
with the given caller's block. -/
inductive Op (α : Type) where
  | close
  | connect (body : Except PyExc α)
  | session (body : Except PyExc α)

/-- Manager state after one operation of the sync manager (`sid` numbers
the session object a `session` op would create). -/
def applySyncOp (m : SyncDatabaseManager) (sid : Nat) :
    Op α → SyncDatabaseManager
  | .close => m.close.manager
  | .connect body => (m.connect body).manager
  | .session body => (m.session sid body).manager

/-- Manager state after a sequence of operations of the sync manager,
session objects numbered consecutively from `sid`. -/
def applySyncOps (m : SyncDatabaseManager) (sid : Nat) :
    List (Op α) → SyncDatabaseManager
  | [] => m
  | o :: os => applySyncOps (applySyncOp m sid o) (sid + 1) os

/-- Manager state after one operation of the async manager. -/
def applyAsyncOp (m : AsyncDatabaseManager) (sid : Nat) :
    Op α → AsyncDatabaseManager
  | .close => m.async_close.manager
  | .connect body => (m.async_connect body).manager
  | .session body => (m.async_session sid body).manager

/-- Manager state after a sequence of operations of the async manager. -/
def applyAsyncOps (m : AsyncDatabaseManager) (sid : Nat) :
    List (Op α) → AsyncDatabaseManager
  | [] => m
  | o :: os => applyAsyncOps (applyAsyncOp m sid o) (sid + 1) os

/-- State invariant of the spec's data model: the session-factory handle is
non-null iff the engine handle is non-null (sync manager). -/
def SyncInv (m : SyncDatabaseManager) : Prop :=
  m._sessionmaker.isSome ↔ m.engine.isSome

/-- State invariant of the spec's data model: the session-factory handle is
non-null iff the engine handle is non-null (async manager). -/
def AsyncInv (m : AsyncDatabaseManager) : Prop :=
  m._sessionmaker.isSome ↔ m.engine.isSome

/-- Closed state: both handles null (sync manager). -/
def SyncClosed (m : SyncDatabaseManager) : Prop :=
  m.engine = none ∧ m._sessionmaker = none

/-- Closed state: both handles null (async manager). -/
def AsyncClosed (m : AsyncDatabaseManager) : Prop :=
  m.engine = none ∧ m._sessionmaker = none

/-! Concrete sample values used to instantiate the theorems. -/

/-- Connection parameters of the spec's concrete scenario. -/
def sampleParams : DefineGeneralDb :=
  { drivername := "postgresql+asyncpg", username := "user",
    password := "pass", host := "localhost", database := "testdb",
    port := 5432 }

/-- An engine whose disposal succeeds. -/
def goodEngine : Engine := { disposeError := none }

/-- An engine whose disposal raises `SQLAlchemyError("disk full")`. -/
def badEngine : Engine := { disposeError := some "disk full" }

/-- An open sync manager (as produced by `SyncDatabaseManager.init`). -/
def sampleSync : SyncDatabaseManager :=
  (SyncDatabaseManager.init sampleParams goodEngine).manager

/-- An open sync manager whose engine fails to dispose. -/
def sampleSyncBad : SyncDatabaseManager :=
  (SyncDatabaseManager.init sampleParams badEngine).manager

/-- A sync manager with a null engine handle (and a surviving factory, as
a patched `create_engine` returning `None` would leave it). -/
def sampleSyncNoEngine : SyncDatabaseManager :=
  { db_params := sampleParams, engine := none,
    _sessionmaker := some { bind := none } }

/-- A sync manager with a null session-factory handle. -/
def sampleSyncNoFactory : SyncDatabaseManager :=
  { db_params := sampleParams, engine := some goodEngine,
    _sessionmaker := none }

/-- An open async manager (as produced by `AsyncDatabaseManager.init`). -/
def sampleAsync : AsyncDatabaseManager :=
  (AsyncDatabaseManager.init sampleParams goodEngine).manager

/-- An open async manager whose engine fails to dispose. -/
def sampleAsyncBad : AsyncDatabaseManager :=
  (AsyncDatabaseManager.init sampleParams badEngine).manager

/-- An async manager with a null engine handle. -/
def sampleAsyncNoEngine : AsyncDatabaseManager :=
  { db_params := sampleParams, engine := none,
    _sessionmaker := some { bind := none } }

/-- An async manager with a null session-factory handle. -/
def sampleAsyncNoFactory : AsyncDatabaseManager :=
  { db_params := sampleParams, engine := some goodEngine,
    _sessionmaker := none }

/-- A caller's block that raises `SQLAlchemyError(msg)` (at result type `α`). -/
def dbError (α : Type) (msg : String) : Except PyExc α :=
  .error (.sqlAlchemyError msg)

/-- A caller's block that raises a non-SQLAlchemy exception (at result type
`α`). -/
def otherExc (α : Type) (msg : String) : Except PyExc α :=
  .error (.otherError msg)

/-! Helper lemmas about the manager state after each operation. -/

theorem connect_manager_eq (m : SyncDatabaseManager) (body : Except PyExc α) :
    (m.connect body).manager = m := by
  rcases hm : m.engine with _ | eng
  · simp [SyncDatabaseManager.connect, hm]
  · rcases body with (msg | msg) | a <;> simp [SyncDatabaseManager.connect, hm]

theorem session_manager_eq (m : SyncDatabaseManager) (sid : Nat)
    (body : Except PyExc α) : (m.session sid body).manager = m := by
  rcases hm : m._sessionmaker with _ | sm
  · simp [SyncDatabaseManager.session, hm]
  · rcases body with (msg | msg) | a <;> simp [SyncDatabaseManager.session, hm]

theorem async_connect_manager_eq (m : AsyncDatabaseManager)
    (body : Except PyExc α) : (m.async_connect body).manager = m := by
  rcases hm : m.engine with _ | eng
  · simp [AsyncDatabaseManager.async_connect, hm]
  · rcases body with (msg | msg) | a <;>
      simp [AsyncDatabaseManager.async_connect, hm]

theorem async_session_manager_eq (m : AsyncDatabaseManager) (sid : Nat)
    (body : Except PyExc α) : (m.async_session sid body).manager = m := by
  rcases hm : m._sessionmaker with _ | sm
  · simp [AsyncDatabaseManager.async_session, hm]
  · rcases body with (msg | msg) | a <;>
      simp [AsyncDatabaseManager.async_session, hm]

theorem close_manager_cases (m : SyncDatabaseManager) :
    m.close.manager = m
      ∨ (m.close.manager.engine = none
          ∧ m.close.manager._sessionmaker = none) := by
  rcases hm : m.engine with _ | eng
  · exact Or.inl (by simp [SyncDatabaseManager.close, hm])
  · rcases hd : eng.disposeError with _ | msg <;>
      exact Or.inr (by simp [SyncDatabaseManager.close, hm, hd])

theorem close_null_manager_eq (m : SyncDatabaseManager)
    (hm : m.engine = none) : m.close.manager = m := by
  simp [SyncDatabaseManager.close, hm]

theorem async_close_manager_cases (m : AsyncDatabaseManager) :
    m.async_close.manager = m
      ∨ (m.async_close.manager.engine = none
          ∧ m.async_close.manager._sessionmaker = none) := by
  rcases hm : m.engine with _ | eng
  · exact Or.inl (by simp [AsyncDatabaseManager.async_close, hm])
  · rcases hd : eng.disposeError with _ | msg <;>
      exact Or.inr (by simp [AsyncDatabaseManager.async_close, hm, hd])

theorem async_close_null_manager_eq (m : AsyncDatabaseManager)
    (hm : m.engine = none) : m.async_close.manager = m := by
  simp [AsyncDatabaseManager.async_close, hm]

theorem applySyncOp_inv (m : SyncDatabaseManager) (sid : Nat) (o : Op α)
    (h : SyncInv m) : SyncInv (applySyncOp m sid o) := by
  cases o with
  | close =>
      rcases close_manager_cases m with hc | ⟨he, hs⟩
      · simpa [applySyncOp, hc] using h
      · simp [applySyncOp, SyncInv, he, hs]
  | connect body => simpa [applySyncOp, connect_manager_eq] using h
  | session body => simpa [applySyncOp, session_manager_eq] using h

theorem applySyncOp_closed (m : SyncDatabaseManager) (sid : Nat) (o : Op α)
    (h : SyncClosed m) : applySyncOp m sid o = m := by
  cases o with
  | close => exact close_null_manager_eq m h.1
  | connect body => exact connect_manager_eq m body
  | session body => exact session_manager_eq m sid body

theorem applySyncOps_inv (sid : Nat) (ops : List (Op α))
    (m : SyncDatabaseManager) (h : SyncInv m) :
    SyncInv (applySyncOps m sid ops) := by
  induction ops generalizing m sid with
  | nil => exact h
  | cons o os ih => exact ih (sid + 1) (applySyncOp m sid o) (applySyncOp_inv m sid o h)

theorem applySyncOps_closed (sid : Nat) (ops : List (Op α))
    (m : SyncDatabaseManager) (h : SyncClosed m) :
    applySyncOps m sid ops = m := by
  induction ops generalizing m sid with
  | nil => rfl
  | cons o os ih =>
      have hstep := applySyncOp_closed m sid o h
      calc applySyncOps m sid (o :: os)
          = applySyncOps (applySyncOp m sid o) (sid + 1) os := rfl
        _ = applySyncOps m (sid + 1) os := by rw [hstep]
        _ = m := ih (sid + 1) m h

theorem applyAsyncOp_inv (m : AsyncDatabaseManager) (sid : Nat) (o : Op α)
    (h : AsyncInv m) : AsyncInv (applyAsyncOp m sid o) := by
  cases o with
  | close =>
      rcases async_close_manager_cases m with hc | ⟨he, hs⟩
      · simpa [applyAsyncOp, hc] using h
      · simp [applyAsyncOp, AsyncInv, he, hs]
  | connect body => simpa [applyAsyncOp, async_connect_manager_eq] using h
  | session body => simpa [applyAsyncOp, async_session_manager_eq] using h

theorem applyAsyncOp_closed (m : AsyncDatabaseManager) (sid : Nat) (o : Op α)
    (h : AsyncClosed m) : applyAsyncOp m sid o = m := by
  cases o with
  | close => exact async_close_null_manager_eq m h.1
  | connect body => exact async_connect_manager_eq m body
  | session body => exact async_session_manager_eq m sid body

theorem applyAsyncOps_inv (sid : Nat) (ops : List (Op α))
    (m : AsyncDatabaseManager) (h : AsyncInv m) :
    AsyncInv (applyAsyncOps m sid ops) := by
  induction ops generalizing m sid with
  | nil => exact h
  | cons o os ih =>
      exact ih (sid + 1) (applyAsyncOp m sid o) (applyAsyncOp_inv m sid o h)

theorem applyAsyncOps_closed (sid : Nat) (ops : List (Op α))
    (m : AsyncDatabaseManager) (h : AsyncClosed m) :
    applyAsyncOps m sid ops = m := by
  induction ops generalizing m sid with
  | nil => rfl
  | cons o os ih =>
      have hstep := applyAsyncOp_closed m sid o h
      calc applyAsyncOps m sid (o :: os)
          = applyAsyncOps (applyAsyncOp m sid o) (sid + 1) os := rfl
        _ = applyAsyncOps m (sid + 1) os := by rw [hstep]
        _ = m := ih (sid + 1) m h

theorem close_open_engine_none (m : SyncDatabaseManager) (eng : Engine)
    (hm : m.engine = some eng) : m.close.manager.engine = none := by
  rcases hd : eng.disposeError with _ | msg <;>
    simp [SyncDatabaseManager.close, hm, hd]

theorem async_close_open_engine_none (m : AsyncDatabaseManager) (eng : Engine)
    (hm : m.engine = some eng) : m.async_close.manager.engine = none := by
  rcases hd : eng.disposeError with _ | msg <;>
    simp [AsyncDatabaseManager.async_close, hm, hd]

theorem factoryCalls_append (es es' : List Event) :
    factoryCalls (es ++ es') = factoryCalls es ++ factoryCalls es' :=
  List.filterMap_append es es' _

theorem sessionCloses_append (es es' : List Event) :
    sessionCloses (es ++ es') = sessionCloses es ++ sessionCloses es' :=
  List.filterMap_append es es' _

theorem session_events_ids (m : SyncDatabaseManager) (sm : Sessionmaker)
    (hsm : m._sessionmaker = some sm) (sid : Nat) (body : Except PyExc α) :
    factoryCalls (m.session sid body).events = [sid]
    ∧ sessionCloses (m.session sid body).events = [sid] := by
  rcases body with (msg | msg) | a <;>
    simp [SyncDatabaseManager.session, hsm, factoryCalls, sessionCloses,
      List.filterMap]

theorem async_session_events_ids (m : AsyncDatabaseManager) (sm : Sessionmaker)
    (hsm : m._sessionmaker = some sm) (sid : Nat) (body : Except PyExc α) :
    factoryCalls (m.async_session sid body).events = [sid]
    ∧ sessionCloses (m.async_session sid body).events = [sid] := by
  rcases body with (msg | msg) | a <;>
    simp [AsyncDatabaseManager.async_session, hsm, factoryCalls, sessionCloses,
      List.filterMap]

theorem runSessions_ids (sm : Sessionmaker) (bs : List (Except PyExc α))
    (m : SyncDatabaseManager) (start : Nat)
    (hsm : m._sessionmaker = some sm) :
    factoryCalls (runSessions m start bs).2 = List.range' start bs.length
    ∧ sessionCloses (runSessions m start bs).2 = List.range' start bs.length := by
  induction bs generalizing m start with
  | nil => simp [runSessions, factoryCalls, sessionCloses]
  | cons b bs ih =>
      have hmgr : (m.session start b).manager = m := session_manager_eq m start b
      have hone := session_events_ids m sm hsm start b
      have hrec := ih m (start + 1) hsm
      have hrun : (runSessions m start (b :: bs)).2
          = (m.session start b).events ++ (runSessions m (start + 1) bs).2 := by
        simp [runSessions, hmgr]
      rw [hrun, factoryCalls_append, sessionCloses_append, hone.1, hone.2,
        hrec.1, hrec.2, List.length_cons, List.range'_succ]
      exact ⟨rfl, rfl⟩

theorem runAsyncSessions_ids (sm : Sessionmaker) (bs : List (Except PyExc α))
    (m : AsyncDatabaseManager) (start : Nat)
    (hsm : m._sessionmaker = some sm) :
    factoryCalls (runAsyncSessions m start bs).2 = List.range' start bs.length
    ∧ sessionCloses (runAsyncSessions m start bs).2
        = List.range' start bs.length := by
  induction bs generalizing m start with
  | nil => simp [runAsyncSessions, factoryCalls, sessionCloses]
  | cons b bs ih =>
      have hmgr : (m.async_session start b).manager = m :=
        async_session_manager_eq m start b
      have hone := async_session_events_ids m sm hsm start b
      have hrec := ih m (start + 1) hsm
      have hrun : (runAsyncSessions m start (b :: bs)).2
          = (m.async_session start b).events
            ++ (runAsyncSessions m (start + 1) bs).2 := by
        simp [runAsyncSessions, hmgr]
      rw [hrun, factoryCalls_append, sessionCloses_append, hone.1, hone.2,
        hrec.1, hrec.2, List.length_cons, List.range'_succ]
      exact ⟨rfl, rfl⟩

/-! Claim theorems. -/

/-- C1: for every open manager (engine and session factory non-null), if the
caller's block inside a `Session()` scope raises a database-layer
(SQLAlchemy) error, then exactly one rollback call and exactly one close
call are made on that session, in that order, and `ServiceError` with the
"Database session failed" message propagates with the original exception
retained as its cause (sync and async variants). -/
theorem session_db_error_rolls_back_closes_and_wraps
    (α : Type) (m : SyncDatabaseManager) (ma : AsyncDatabaseManager)
    (sid : Nat) (msg : String)
    (_hE : m.engine.isSome = true) (hS : m._sessionmaker.isSome = true)
    (_hAE : ma.engine.isSome = true) (hAS : ma._sessionmaker.isSome = true) :
    ((m.session sid (dbError α msg)).outcome
        = .serviceError { msg := some "Database session failed"
                          cause := some (.sqlAlchemyError msg) }
      ∧ sessionRollbacks (m.session sid (dbError α msg)).events = [sid]
      ∧ sessionCloses (m.session sid (dbError α msg)).events = [sid]
      ∧ sessionOps (m.session sid (dbError α msg)).events
          = [.sessionRollback sid, .sessionClose sid])
    ∧ ((ma.async_session sid (dbError α msg)).outcome
        = .serviceError { msg := some "Database session failed"
                          cause := some (.sqlAlchemyError msg) }
      ∧ sessionRollbacks (ma.async_session sid (dbError α msg)).events = [sid]
      ∧ sessionCloses (ma.async_session sid (dbError α msg)).events = [sid]
      ∧ sessionOps (ma.async_session sid (dbError α msg)).events
          = [.sessionRollback sid, .sessionClose sid]) := by
  obtain ⟨sm, hsm⟩ := Option.isSome_iff_exists.mp hS
  obtain ⟨sma, hsma⟩ := Option.isSome_iff_exists.mp hAS
  refine ⟨⟨?_, ?_, ?_, ?_⟩, ⟨?_, ?_, ?_, ?_⟩⟩ <;>
    simp [SyncDatabaseManager.session, AsyncDatabaseManager.async_session,
      dbError, hsm, hsma, sessionRollbacks, sessionCloses, sessionOps,
      List.filterMap, List.filter]

/-- Witness for C1 at concrete open managers, session id 0, error message
"boom". -/
theorem session_db_error_rolls_back_closes_and_wraps_witness :
    (sampleSync.engine.isSome = true
      ∧ sampleSync._sessionmaker.isSome = true
      ∧ sampleAsync.engine.isSome = true
      ∧ sampleAsync._sessionmaker.isSome = true)
    ∧ ((sampleSync.session 0 (dbError Unit "boom")).outcome
        = .serviceError { msg := some "Database session failed"
                          cause := some (.sqlAlchemyError "boom") }
      ∧ sessionOps (sampleSync.session 0 (dbError Unit "boom")).events
          = [.sessionRollback 0, .sessionClose 0])
    ∧ ((sampleAsync.async_session 0 (dbError Unit "boom")).outcome
        = .serviceError { msg := some "Database session failed"
                          cause := some (.sqlAlchemyError "boom") }
      ∧ sessionOps (sampleAsync.async_session 0 (dbError Unit "boom")).events
          = [.sessionRollback 0, .sessionClose 0]) := by
  have h := session_db_error_rolls_back_closes_and_wraps Unit sampleSync
    sampleAsync 0 "boom" rfl rfl rfl rfl
  exact ⟨⟨rfl, rfl, rfl, rfl⟩, ⟨h.1.1, h.1.2.2.2⟩, ⟨h.2.1, h.2.2.2.2⟩⟩

/-- C2: for every open manager, if the caller's block inside a `Connect()`
scope raises a database-layer (SQLAlchemy) error, then exactly one rollback
call is made on the connection before `ServiceError` with the
"Database connection failed" message propagates with the original exception
as its cause, and the original exception never escapes in its original form
(sync and async variants). -/
theorem connect_db_error_rolls_back_and_wraps
    (α : Type) (m : SyncDatabaseManager) (ma : AsyncDatabaseManager)
    (msg : String)
    (hE : m.engine.isSome = true) (hAE : ma.engine.isSome = true) :
    ((m.connect (dbError α msg)).outcome
        = .serviceError { msg := some "Database connection failed"
                          cause := some (.sqlAlchemyError msg) }
      ∧ connRollbackCount (m.connect (dbError α msg)).events = 1
      ∧ ∀ e : PyExc, (m.connect (dbError α msg)).outcome ≠ .pyExc e)
    ∧ ((ma.async_connect (dbError α msg)).outcome
        = .serviceError { msg := some "Database connection failed"
                          cause := some (.sqlAlchemyError msg) }
      ∧ connRollbackCount (ma.async_connect (dbError α msg)).events = 1
      ∧ ∀ e : PyExc, (ma.async_connect (dbError α msg)).outcome ≠ .pyExc e) := by
  obtain ⟨eng, heng⟩ := Option.isSome_iff_exists.mp hE
  obtain ⟨enga, henga⟩ := Option.isSome_iff_exists.mp hAE
  refine ⟨⟨?_, ?_, ?_⟩, ⟨?_, ?_, ?_⟩⟩ <;>
    simp [SyncDatabaseManager.connect, AsyncDatabaseManager.async_connect,
      dbError, heng, henga, connRollbackCount, List.filter]

/-- Witness for C2 at concrete open managers, error message "boom". -/
theorem connect_db_error_rolls_back_and_wraps_witness :
    (sampleSync.engine.isSome = true ∧ sampleAsync.engine.isSome = true)
    ∧ ((sampleSync.connect (dbError Unit "boom")).outcome
        = .serviceError { msg := some "Database connection failed"
                          cause := some (.sqlAlchemyError "boom") }
      ∧ connRollbackCount (sampleSync.connect (dbError Unit "boom")).events = 1)
    ∧ ((sampleAsync.async_connect (dbError Unit "boom")).outcome
        = .serviceError { msg := some "Database connection failed"
                          cause := some (.sqlAlchemyError "boom") }
      ∧ connRollbackCount
          (sampleAsync.async_connect (dbError Unit "boom")).events = 1) := by
  have h := connect_db_error_rolls_back_and_wraps Unit sampleSync sampleAsync
    "boom" rfl rfl
  exact ⟨⟨rfl, rfl⟩, ⟨h.1.1, h.1.2.1⟩, ⟨h.2.1, h.2.2.1⟩⟩

/-- C3: `Close()` on a manager whose engine handle is null raises
`ServiceError` with the "Engine is not initialized" message and leaves the
state unchanged; and after a first successful `Close()` on an open manager
every subsequent `Close()` raises that same error and keeps the state
unchanged (sync and async variants). -/
theorem close_null_engine_fails_loud
    (m : SyncDatabaseManager) (ma : AsyncDatabaseManager)
    (mo : SyncDatabaseManager) (mao : AsyncDatabaseManager)
    (hm : m.engine = none) (hma : ma.engine = none)
    (hmo : mo.engine = some goodEngine) (hmao : mao.engine = some goodEngine) :
    (m.close.manager = m
      ∧ m.close.outcome
          = .serviceError { msg := some "Engine is not initialized" })
    ∧ (ma.async_close.manager = ma
      ∧ ma.async_close.outcome
          = .serviceError { msg := some "Engine is not initialized" })
    ∧ (mo.close.outcome = .ok ()
      ∧ mo.close.manager.close.outcome
          = .serviceError { msg := some "Engine is not initialized" }
      ∧ mo.close.manager.close.manager = mo.close.manager)
    ∧ (mao.async_close.outcome = .ok ()
      ∧ mao.async_close.manager.async_close.outcome
          = .serviceError { msg := some "Engine is not initialized" }
      ∧ mao.async_close.manager.async_close.manager
          = mao.async_close.manager) := by
  refine ⟨⟨?_, ?_⟩, ⟨?_, ?_⟩, ⟨?_, ?_, ?_⟩, ⟨?_, ?_, ?_⟩⟩ <;>
    simp [SyncDatabaseManager.close, AsyncDatabaseManager.async_close,
      hm, hma, hmo, hmao, goodEngine]

/-- Witness for C3 at concrete closed-like and open managers. -/
theorem close_null_engine_fails_loud_witness :
    (sampleSyncNoEngine.engine = none ∧ sampleAsyncNoEngine.engine = none
      ∧ sampleSync.engine = some goodEngine
      ∧ sampleAsync.engine = some goodEngine)
    ∧ (sampleSyncNoEngine.close.manager = sampleSyncNoEngine
      ∧ sampleSyncNoEngine.close.outcome
          = .serviceError { msg := some "Engine is not initialized" })
    ∧ (sampleSync.close.manager.close.outcome
        = .serviceError { msg := some "Engine is not initialized" }
      ∧ sampleSync.close.manager.close.manager = sampleSync.close.manager)
    ∧ (sampleAsync.async_close.manager.async_close.outcome
        = .serviceError { msg := some "Engine is not initialized" }
      ∧ sampleAsync.async_close.manager.async_close.manager
          = sampleAsync.async_close.manager) := by
  have h := close_null_engine_fails_loud sampleSyncNoEngine sampleAsyncNoEngine
    sampleSync sampleAsync rfl rfl rfl rfl
  exact ⟨⟨rfl, rfl, rfl, rfl⟩, ⟨h.1.1, h.1.2⟩,
    ⟨h.2.2.1.2.1, h.2.2.1.2.2⟩, ⟨h.2.2.2.2.1, h.2.2.2.2.2⟩⟩

/-- C5: for every open manager whose engine disposal fails during `Close()`,
both the engine and the session-factory handles are still nulled out, and
`ServiceError` with the "Failed to close database engine" message is raised
with the original exception as cause (sync and async variants). -/
theorem close_dispose_failure_still_transitions
    (m : SyncDatabaseManager) (ma : AsyncDatabaseManager)
    (eng enga : Engine) (msg msga : String)
    (hm : m.engine = some eng) (hd : eng.disposeError = some msg)
    (hma : ma.engine = some enga) (hda : enga.disposeError = some msga) :
    (m.close.manager.engine = none
      ∧ m.close.manager._sessionmaker = none
      ∧ m.close.outcome
          = .serviceError { msg := some "Failed to close database engine"
                            cause := some (.sqlAlchemyError msg) })
    ∧ (ma.async_close.manager.engine = none
      ∧ ma.async_close.manager._sessionmaker = none
      ∧ ma.async_close.outcome
          = .serviceError { msg := some "Failed to close database engine"
                            cause := some (.sqlAlchemyError msga) }) := by
  refine ⟨⟨?_, ?_, ?_⟩, ⟨?_, ?_, ?_⟩⟩ <;>
    simp [SyncDatabaseManager.close, AsyncDatabaseManager.async_close,
      hm, hma, hd, hda]

/-- Witness for C5 at concrete managers whose engines fail to dispose. -/
theorem close_dispose_failure_still_transitions_witness :
    (sampleSyncBad.engine = some badEngine
      ∧ badEngine.disposeError = some "disk full"
      ∧ sampleAsyncBad.engine = some badEngine)
    ∧ (sampleSyncBad.close.manager.engine = none
      ∧ sampleSyncBad.close.manager._sessionmaker = none
      ∧ sampleSyncBad.close.outcome
          = .serviceError { msg := some "Failed to close database engine"
                            cause := some (.sqlAlchemyError "disk full") })
    ∧ (sampleAsyncBad.async_close.manager.engine = none
      ∧ sampleAsyncBad.async_close.manager._sessionmaker = none
      ∧ sampleAsyncBad.async_close.outcome
          = .serviceError { msg := some "Failed to close database engine"
                            cause := some (.sqlAlchemyError "disk full") }) := by
  have h := close_dispose_failure_still_transitions sampleSyncBad sampleAsyncBad
    badEngine badEngine "disk full" "disk full" rfl rfl rfl rfl
  exact ⟨⟨rfl, rfl, rfl⟩, h.1, h.2⟩

/-- C7: for every manager with a null engine handle, `Connect()` raises
`ServiceError` with the "Engine is not initialized" message without
beginning a transaction; and for every manager with a null session-factory
handle, `Session()` raises `ServiceError` with the
"Sessionmaker is not initialized" message without constructing a session
object (sync and async variants). -/
theorem uninitialized_scopes_fail_before_acquiring
    (α : Type) (m mf : SyncDatabaseManager) (ma maf : AsyncDatabaseManager)
    (sid : Nat) (body : Except PyExc α)
    (hm : m.engine = none) (hmf : mf._sessionmaker = none)
    (hma : ma.engine = none) (hmaf : maf._sessionmaker = none) :
    ((m.connect body).outcome
        = .serviceError { msg := some "Engine is not initialized" }
      ∧ beginConnectionCount (m.connect body).events = 0)
    ∧ ((mf.session sid body).outcome
        = .serviceError { msg := some "Sessionmaker is not initialized" }
      ∧ factoryCalls (mf.session sid body).events = [])
    ∧ ((ma.async_connect body).outcome
        = .serviceError { msg := some "Engine is not initialized" }
      ∧ beginConnectionCount (ma.async_connect body).events = 0)
    ∧ ((maf.async_session sid body).outcome
        = .serviceError { msg := some "Sessionmaker is not initialized" }
      ∧ factoryCalls (maf.async_session sid body).events = []) := by
  refine ⟨⟨?_, ?_⟩, ⟨?_, ?_⟩, ⟨?_, ?_⟩, ⟨?_, ?_⟩⟩ <;>
    simp [SyncDatabaseManager.connect, SyncDatabaseManager.session,
      AsyncDatabaseManager.async_connect, AsyncDatabaseManager.async_session,
      hm, hmf, hma, hmaf, beginConnectionCount, factoryCalls,
      List.filter, List.filterMap]

/-- Witness for C7 at concrete managers with null engine respectively null
factory. -/
theorem uninitialized_scopes_fail_before_acquiring_witness :
    (sampleSyncNoEngine.engine = none
      ∧ sampleSyncNoFactory._sessionmaker = none
      ∧ sampleAsyncNoEngine.engine = none
      ∧ sampleAsyncNoFactory._sessionmaker = none)
    ∧ ((sampleSyncNoEngine.connect (Except.ok ())).outcome
        = .serviceError { msg := some "Engine is not initialized" }
      ∧ beginConnectionCount
          (sampleSyncNoEngine.connect (Except.ok ())).events = 0)
    ∧ ((sampleSyncNoFactory.session 0 (Except.ok ())).outcome
        = .serviceError { msg := some "Sessionmaker is not initialized" }
      ∧ factoryCalls (sampleSyncNoFactory.session 0 (Except.ok ())).events
          = [])
    ∧ ((sampleAsyncNoEngine.async_connect (Except.ok ())).outcome
        = .serviceError { msg := some "Engine is not initialized" }
      ∧ beginConnectionCount
          (sampleAsyncNoEngine.async_connect (Except.ok ())).events = 0)
    ∧ ((sampleAsyncNoFactory.async_session 0 (Except.ok ())).outcome
        = .serviceError { msg := some "Sessionmaker is not initialized" }
      ∧ factoryCalls
          (sampleAsyncNoFactory.async_session 0 (Except.ok ())).events
          = []) := by
  have h := uninitialized_scopes_fail_before_acquiring Unit sampleSyncNoEngine
    sampleSyncNoFactory sampleAsyncNoEngine sampleAsyncNoFactory 0
    (Except.ok ()) rfl rfl rfl rfl
  exact ⟨⟨rfl, rfl, rfl, rfl⟩, h.1, h.2.1, h.2.2.1, h.2.2.2⟩

/-- C8: `create_url` is a deterministic pure derivation whose driver,
username, host, database, and port fields exactly equal the corresponding
input fields, in particular on the spec's concrete parameters
`postgresql+asyncpg / user / pass / localhost / testdb / 5432`. -/
theorem create_url_preserves_fields :
    (∀ p : DefineGeneralDb,
      (create_url p).drivername = p.drivername
        ∧ (create_url p).username = p.username
        ∧ (create_url p).host = p.host
        ∧ (create_url p).database = p.database
        ∧ (create_url p).port = p.port)
    ∧ (create_url sampleParams).drivername = "postgresql+asyncpg"
    ∧ (create_url sampleParams).username = "user"
    ∧ (create_url sampleParams).host = "localhost"
    ∧ (create_url sampleParams).database = "testdb"
    ∧ (create_url sampleParams).port = 5432 :=
  ⟨fun _ => ⟨rfl, rfl, rfl, rfl, rfl⟩, rfl, rfl, rfl, rfl, rfl⟩

/-- C10: for every open manager, a non-SQLAlchemy exception raised by the
caller's block propagates unchanged out of a `Session()` or `Connect()`
scope — not wrapped as `ServiceError`, no rollback issued by this layer —
and in the `Session()` case the session is still closed exactly once (sync
and async variants). -/
theorem non_db_error_propagates_unchanged
    (α : Type) (m : SyncDatabaseManager) (ma : AsyncDatabaseManager)
    (sid : Nat) (msg : String)
    (hE : m.engine.isSome = true) (hS : m._sessionmaker.isSome = true)
    (hAE : ma.engine.isSome = true) (hAS : ma._sessionmaker.isSome = true) :
    ((m.session sid (otherExc α msg)).outcome = .pyExc (.otherError msg)
      ∧ sessionRollbacks (m.session sid (otherExc α msg)).events = []
      ∧ sessionCloses (m.session sid (otherExc α msg)).events = [sid])
    ∧ ((m.connect (otherExc α msg)).outcome = .pyExc (.otherError msg)
      ∧ connRollbackCount (m.connect (otherExc α msg)).events = 0)
    ∧ ((ma.async_session sid (otherExc α msg)).outcome
        = .pyExc (.otherError msg)
      ∧ sessionRollbacks (ma.async_session sid (otherExc α msg)).events = []
      ∧ sessionCloses (ma.async_session sid (otherExc α msg)).events = [sid])
    ∧ ((ma.async_connect (otherExc α msg)).outcome = .pyExc (.otherError msg)
      ∧ connRollbackCount (ma.async_connect (otherExc α msg)).events = 0) := by
  obtain ⟨eng, heng⟩ := Option.isSome_iff_exists.mp hE
  obtain ⟨enga, henga⟩ := Option.isSome_iff_exists.mp hAE
  obtain ⟨sm, hsm⟩ := Option.isSome_iff_exists.mp hS
  obtain ⟨sma, hsma⟩ := Option.isSome_iff_exists.mp hAS
  refine ⟨⟨?_, ?_, ?_⟩, ⟨?_, ?_⟩, ⟨?_, ?_, ?_⟩, ⟨?_, ?_⟩⟩ <;>
    simp [SyncDatabaseManager.session, SyncDatabaseManager.connect,
      AsyncDatabaseManager.async_session, AsyncDatabaseManager.async_connect,
      otherExc, heng, henga, hsm, hsma, sessionRollbacks, sessionCloses,
      connRollbackCount, List.filter, List.filterMap]

/-- Witness for C10 at concrete open managers, session id 0, message
"oops". -/
theorem non_db_error_propagates_unchanged_witness :
    (sampleSync.engine.isSome = true
      ∧ sampleSync._sessionmaker.isSome = true
      ∧ sampleAsync.engine.isSome = true
      ∧ sampleAsync._sessionmaker.isSome = true)
    ∧ ((sampleSync.session 0 (otherExc Unit "oops")).outcome
        = .pyExc (.otherError "oops")
      ∧ sessionRollbacks (sampleSync.session 0 (otherExc Unit "oops")).events
          = []
      ∧ sessionCloses (sampleSync.session 0 (otherExc Unit "oops")).events
          = [0])
    ∧ ((sampleSync.connect (otherExc Unit "oops")).outcome
        = .pyExc (.otherError "oops")
      ∧ connRollbackCount (sampleSync.connect (otherExc Unit "oops")).events
          = 0)
    ∧ ((sampleAsync.async_session 0 (otherExc Unit "oops")).outcome
        = .pyExc (.otherError "oops")
      ∧ sessionCloses
          (sampleAsync.async_session 0 (otherExc Unit "oops")).events
          = [0]) := by
  have h := non_db_error_propagates_unchanged Unit sampleSync sampleAsync 0
    "oops" rfl rfl rfl rfl
  exact ⟨⟨rfl, rfl, rfl, rfl⟩, h.1, h.2.1, ⟨h.2.2.1.1, h.2.2.1.2.2⟩⟩

/-- C4: every operation preserves the state invariants: construction
establishes an open manager with session factory non-null iff engine
non-null; `Close()`, `Connect()` and `Session()` preserve that invariant
along arbitrary operation sequences; and once both handles are null no
operation sequence ever restores them (sync and async variants). -/
theorem lifecycle_invariants_preserved (α : Type) :
    (∀ (p : DefineGeneralDb) (eng : Engine),
      SyncInv (SyncDatabaseManager.init p eng).manager
        ∧ (SyncDatabaseManager.init p eng).manager.engine.isSome = true
        ∧ AsyncInv (AsyncDatabaseManager.init p eng).manager
        ∧ (AsyncDatabaseManager.init p eng).manager.engine.isSome = true)
    ∧ (∀ (m : SyncDatabaseManager) (sid : Nat) (ops : List (Op α)),
        SyncInv m → SyncInv (applySyncOps m sid ops))
    ∧ (∀ (m : SyncDatabaseManager) (sid : Nat) (ops : List (Op α)),
        SyncClosed m → applySyncOps m sid ops = m)
    ∧ (∀ (m : AsyncDatabaseManager) (sid : Nat) (ops : List (Op α)),
        AsyncInv m → AsyncInv (applyAsyncOps m sid ops))
    ∧ (∀ (m : AsyncDatabaseManager) (sid : Nat) (ops : List (Op α)),
        AsyncClosed m → applyAsyncOps m sid ops = m) :=
  ⟨fun _ _ => ⟨Iff.rfl, rfl, Iff.rfl, rfl⟩,
    fun m sid ops h => applySyncOps_inv sid ops m h,
    fun m sid ops h => applySyncOps_closed sid ops m h,
    fun m sid ops h => applyAsyncOps_inv sid ops m h,
    fun m sid ops h => applyAsyncOps_closed sid ops m h⟩

/-- Witness for C4 at a concrete open manager and a concrete operation
sequence (close, then a connect scope and a session scope on the closed
manager). -/
theorem lifecycle_invariants_preserved_witness :
    (SyncInv sampleSync ∧ SyncClosed sampleSync.close.manager
      ∧ AsyncInv sampleAsync ∧ AsyncClosed sampleAsync.async_close.manager)
    ∧ SyncInv (applySyncOps sampleSync 0
        [Op.close, Op.connect (Except.ok ()), Op.session (Except.ok ())])
    ∧ applySyncOps sampleSync.close.manager 0
        [Op.connect (Except.ok ()), Op.session (Except.ok ())]
        = sampleSync.close.manager
    ∧ AsyncInv (applyAsyncOps sampleAsync 0
        [Op.close, Op.connect (Except.ok ()), Op.session (Except.ok ())])
    ∧ applyAsyncOps sampleAsync.async_close.manager 0
        [Op.connect (Except.ok ()), Op.session (Except.ok ())]
        = sampleAsync.async_close.manager := by
  have h := lifecycle_invariants_preserved Unit
  exact ⟨⟨Iff.rfl, ⟨rfl, rfl⟩, Iff.rfl, ⟨rfl, rfl⟩⟩,
    h.2.1 sampleSync 0 _ Iff.rfl,
    h.2.2.1 sampleSync.close.manager 0 _ ⟨rfl, rfl⟩,
    h.2.2.2.1 sampleAsync 0 _ Iff.rfl,
    h.2.2.2.2 sampleAsync.async_close.manager 0 _ ⟨rfl, rfl⟩⟩

/-- C9: only `Close()` mutates the manager's state: on an open manager a
completed `Connect()` or `Session()` scope — normal or raising — leaves the
manager (engine handle, session-factory handle, connection parameters)
unchanged, while `Close()` does change it (sync and async variants). -/
theorem scopes_do_not_mutate_state
    (α : Type) (m : SyncDatabaseManager) (ma : AsyncDatabaseManager)
    (sid : Nat) (body bodya : Except PyExc α)
    (hE : m.engine.isSome = true) (_hS : m._sessionmaker.isSome = true)
    (hAE : ma.engine.isSome = true) (_hAS : ma._sessionmaker.isSome = true) :
    ((m.connect body).manager = m
      ∧ (m.session sid body).manager = m
      ∧ m.close.manager ≠ m)
    ∧ ((ma.async_connect bodya).manager = ma
      ∧ (ma.async_session sid bodya).manager = ma
      ∧ ma.async_close.manager ≠ ma) := by
  obtain ⟨eng, heng⟩ := Option.isSome_iff_exists.mp hE
  obtain ⟨enga, henga⟩ := Option.isSome_iff_exists.mp hAE
  refine ⟨⟨connect_manager_eq m body, session_manager_eq m sid body, ?_⟩,
    ⟨async_connect_manager_eq ma bodya,
      async_session_manager_eq ma sid bodya, ?_⟩⟩
  · intro hc
    have h1 := close_open_engine_none m eng heng
    rw [hc, heng] at h1
    exact Option.noConfusion h1
  · intro hc
    have h1 := async_close_open_engine_none ma enga henga
    rw [hc, henga] at h1
    exact Option.noConfusion h1

/-- Witness for C9 at concrete open managers with a normally returning
block. -/
theorem scopes_do_not_mutate_state_witness :
    (sampleSync.engine.isSome = true
      ∧ sampleSync._sessionmaker.isSome = true
      ∧ sampleAsync.engine.isSome = true
      ∧ sampleAsync._sessionmaker.isSome = true)
    ∧ ((sampleSync.connect (Except.ok ())).manager = sampleSync
      ∧ (sampleSync.session 0 (Except.ok ())).manager = sampleSync
      ∧ sampleSync.close.manager ≠ sampleSync)
    ∧ ((sampleAsync.async_connect (Except.ok ())).manager = sampleAsync
      ∧ (sampleAsync.async_session 0 (Except.ok ())).manager = sampleAsync
      ∧ sampleAsync.async_close.manager ≠ sampleAsync) :=
  ⟨⟨rfl, rfl, rfl, rfl⟩,
    scopes_do_not_mutate_state Unit sampleSync sampleAsync 0
      (Except.ok ()) (Except.ok ()) rfl rfl rfl rfl⟩

/-- C6: for every open manager, performing N sequential `Session()` scopes
invokes the session factory exactly N times, with a fresh session per scope
(consecutively numbered ids, never reused), and each acquired session is
closed exactly once — the close calls match the factory calls one-to-one —
on normal exit as well as on error exit (sync and async variants). -/
theorem session_scopes_fresh_and_closed
    (α : Type) (m : SyncDatabaseManager) (ma : AsyncDatabaseManager)
    (sm sma : Sessionmaker) (start : Nat) (bs bsa : List (Except PyExc α))
    (hsm : m._sessionmaker = some sm) (hsma : ma._sessionmaker = some sma) :
    (factoryCalls (runSessions m start bs).2 = List.range' start bs.length
      ∧ sessionCloses (runSessions m start bs).2
          = factoryCalls (runSessions m start bs).2
      ∧ (factoryCalls (runSessions m start bs).2).length = bs.length
      ∧ (factoryCalls (runSessions m start bs).2).Nodup)
    ∧ (factoryCalls (runAsyncSessions ma start bsa).2
          = List.range' start bsa.length
      ∧ sessionCloses (runAsyncSessions ma start bsa).2
          = factoryCalls (runAsyncSessions ma start bsa).2
      ∧ (factoryCalls (runAsyncSessions ma start bsa).2).length = bsa.length
      ∧ (factoryCalls (runAsyncSessions ma start bsa).2).Nodup) := by
  have h := runSessions_ids sm bs m start hsm
  have ha := runAsyncSessions_ids sma bsa ma start hsma
  refine ⟨⟨h.1, ?_, ?_, ?_⟩, ⟨ha.1, ?_, ?_, ?_⟩⟩
  · rw [h.1, h.2]
  · rw [h.1, List.length_range']
  · rw [h.1]
    exact List.nodup_range' _ _
  · rw [ha.1, ha.2]
  · rw [ha.1, List.length_range']
  · rw [ha.1]
    exact List.nodup_range' _ _

/-- Witness for C6 at concrete open managers and three scopes: one normal
exit, one database-layer error, one other exception. -/
theorem session_scopes_fresh_and_closed_witness :
    (sampleSync._sessionmaker = some { bind := some goodEngine }
      ∧ sampleAsync._sessionmaker = some { bind := some goodEngine })
    ∧ (factoryCalls
        (runSessions sampleSync 0
          [Except.ok 7, dbError Nat "x", otherExc Nat "y"]).2
        = List.range' 0 3
      ∧ sessionCloses
          (runSessions sampleSync 0
            [Except.ok 7, dbError Nat "x", otherExc Nat "y"]).2
          = factoryCalls
              (runSessions sampleSync 0
                [Except.ok 7, dbError Nat "x", otherExc Nat "y"]).2)
    ∧ (factoryCalls
        (runAsyncSessions sampleAsync 0
          [Except.ok 7, dbError Nat "x", otherExc Nat "y"]).2
        = List.range' 0 3
      ∧ sessionCloses
          (runAsyncSessions sampleAsync 0
            [Except.ok 7, dbError Nat "x", otherExc Nat "y"]).2
          = factoryCalls
              (runAsyncSessions sampleAsync 0
                [Except.ok 7, dbError Nat "x", otherExc Nat "y"]).2) := by
  have h := session_scopes_fresh_and_closed Nat sampleSync sampleAsync
    { bind := some goodEngine } { bind := some goodEngine } 0
    [Except.ok 7, dbError Nat "x", otherExc Nat "y"]
    [Except.ok 7, dbError Nat "x", otherExc Nat "y"] rfl rfl
  exact ⟨⟨rfl, rfl⟩, ⟨h.1.1, h.1.2.1⟩, ⟨h.2.1, h.2.2.1⟩⟩

end DBUtils
